import Mathlib

/-!
Shallow embedding of `src/main.py` (PPTScanner): a linear pipeline that
opens a slide deck, walks its slides and shapes collecting text-frame text,
table-cell text and OCR text from embedded images, consolidates the
per-slide strings into one labeled block, and submits that block to a
remote inference service.

External collaborators (the pptx container parser, the OCR engine, the
remote model) are modelled as oracles: functions supplied as parameters,
returning `Except` to model a raised exception versus a normal return.
-/

namespace PPTScanner

/-- A text frame of a shape or table cell (`shape.text_frame.text`). -/
structure TextFrame where
  text : String
deriving Repr, DecidableEq

/-- A table cell; `cell.text_frame.text` is read by the extractor. -/
structure Cell where
  text_frame : TextFrame
deriving Repr, DecidableEq

/-- A table row (`row.cells`). -/
structure Row where
  cells : List Cell
deriving Repr, DecidableEq

/-- A table (`shape.table.rows`). -/
structure Table where
  rows : List Row
deriving Repr, DecidableEq

/-- An embedded picture; `shape.image.blob` is its raw byte payload. -/
structure PptxImage where
  blob : List Nat
deriving Repr, DecidableEq

/-- A shape, polymorphic over its capability set: it may carry a text
frame (`shape.has_text_frame` / `shape.text_frame`), a table
(`shape.has_table` / `shape.table`) and/or an image (`hasattr(shape,
'image')` / `shape.image`); the three are independent options. -/
structure Shape where
  text_frame : Option TextFrame
  table : Option Table
  image : Option PptxImage
deriving Repr, DecidableEq

/-- A slide: an ordered sequence of shapes (`slide.shapes`). -/
structure Slide where
  shapes : List Shape
deriving Repr, DecidableEq

/-- A parsed presentation: its slides in document order (`prs.slides`). -/
structure Pptx where
  slides : List Slide
deriving Repr, DecidableEq

/-- The OCR pipeline `Image.open` + `pytesseract.image_to_string` as one
oracle: `Except.ok raw` is a successful recognition returning the raw
(untrimmed) text, `Except.error e` is any decode or recognition
exception with message `e`. -/
def OcrEngine : Type := List Nat → Except String String

/-- The remote model call `model.generate_content` + `response.text` as an
oracle: `Except.ok t` is the free-text response, `Except.error e` any
network/auth/service exception with message `e`. -/
def GenAi : Type := String → Except String String

/-- The ambient world `extract_data_from_pptx` interacts with:
`os.path.exists`, the `Presentation(path)` constructor (which raises on a
corrupt or non-container file: `Except.error`), and the OCR engine. -/
structure Env where
  file_exists : String → Bool
  open_pptx : String → Except String Pptx
  ocr : OcrEngine

/-- The character class Python's `str.strip()` removes by default
(ASCII whitespace: space, tab, newline, carriage return, vertical tab,
form feed). -/
def py_is_space (c : Char) : Bool :=
  c = ' ' || c = '\t' || c = '\n' || c = '\r' || c = '\x0b' || c = '\x0c'

/-- Python's `text.strip()`: the string with leading and trailing
whitespace removed. -/
def py_strip (s : String) : String :=
  String.mk ((((s.data.dropWhile py_is_space).reverse).dropWhile py_is_space).reverse)

/-- `extract_text_from_image(image_bytes)` from `src/main.py` lines 21-31:
decode and OCR the bytes, return the recognized text stripped of
leading/trailing whitespace; on any exception print a warning and return
the empty string. -/
def extract_text_from_image (ocr : OcrEngine) (image_bytes : List Nat) : String :=
  match ocr image_bytes with
  | Except.ok text => py_strip text
  | Except.error _ => ""

/-- The fragments one shape appends to `slide_texts` (lines 49-62), in
order: text-frame text if the shape has a text frame; each table cell's
text in row-major order if it has a table; and, if it carries an image
whose OCR text is non-empty, that text under the label line. -/
def shape_texts (ocr : OcrEngine) (shape : Shape) : List String :=
  (match shape.text_frame with
    | some tf => [tf.text]
    | none => []) ++
  (match shape.table with
    | some tbl => tbl.rows.flatMap (fun row => row.cells.map (fun cell => cell.text_frame.text))
    | none => []) ++
  (match shape.image with
    | some img =>
        let ocr_text := extract_text_from_image ocr img.blob
        if ocr_text = "" then [] else ["[OCR Text from Image]:\n" ++ ocr_text]
    | none => [])

/-- One slide's consolidated entry (line 64):
`"\n".join(filter(None, slide_texts))` over the fragments collected in
shape order. -/
def slide_text (ocr : OcrEngine) (slide : Slide) : String :=
  String.intercalate "\n" ((slide.shapes.flatMap (shape_texts ocr)).filter (fun t => t != ""))

/-- Spec-side reading of "Join all appended fragments for a slide with
newlines, skipping any empty fragment" (spec §4.2), as an incremental
accumulation: an empty fragment is skipped, the first kept fragment
starts the string, and every later kept fragment is appended after a
newline. Used only to state the refinement of `slide_text`. -/
def append_fragment (acc frag : String) : String :=
  if frag = "" then acc
  else if acc = "" then frag
  else acc ++ "\n" ++ frag

/-- Spec-side fragments of one shape (spec §4.2): "if the shape carries a
text frame, append its text; if it carries a table, append every cell's
text frame text, row-major, in row then column order; if it carries image
data, extract the image's byte payload and pass to the Image-Text
Extractor, and if non-empty, append the result prefixed with a literal
label `[OCR Text from Image]:` on its own line". Used only to state the
refinement of `slide_text`. -/
def shape_fragments_spec (ocr : OcrEngine) (sh : Shape) : List String :=
  (sh.text_frame.map TextFrame.text).toList ++
  (sh.table.map (fun tbl =>
      tbl.rows.flatMap (fun r => r.cells.map (fun c => c.text_frame.text)))).getD [] ++
  (sh.image.map (fun img =>
      let t := extract_text_from_image ocr img.blob
      if t = "" then [] else ["[OCR Text from Image]:\n" ++ t])).getD []

/-- Spec-side consolidated slide entry: the fragments of each shape in
shape order, joined by `append_fragment` starting from the empty string.
Used only to state the refinement of `slide_text`. -/
def slide_text_spec (ocr : OcrEngine) (slide : Slide) : String :=
  (slide.shapes.flatMap (shape_fragments_spec ocr)).foldl append_fragment ""

/-- The exception kinds `main`'s `try` block can see, distinguished the way
its `except` clauses distinguish them: `ValueError` (raised by
`configure_ai`), `FileNotFoundError` (raised at line 38), and the
parse/format exception `Presentation(pptx_path)` raises on a present but
unparseable file (caught only by the generic `except Exception`). -/
inductive PyErr where
  | valueError (msg : String)
  | fileNotFoundError (msg : String)
  | pptxFormatError (msg : String)
deriving Repr, DecidableEq

/-- `extract_data_from_pptx(pptx_path)` from `src/main.py` lines 33-71:
check existence, open the container, and build `slide_data`, a dict keyed
by 1-based slide number in insertion (= document) order; modelled as the
association list in insertion order. -/
def extract_data_from_pptx (env : Env) (pptx_path : String) :
    Except PyErr (List (Nat × String)) :=
  if env.file_exists pptx_path = false then
    Except.error (PyErr.fileNotFoundError
      ("The file '" ++ pptx_path ++ "' was not found."))
  else
    match env.open_pptx pptx_path with
    | Except.error e => Except.error (PyErr.pptxFormatError e)
    | Except.ok prs =>
        Except.ok (prs.slides.enum.map (fun p => (p.1 + 1, slide_text env.ocr p.2)))

/-- The consolidation step of `main` (lines 124-126):
`"\n\n".join(f"--- Slide {num} ---\n{text}" for num, text in
slide_data.items())`; dict iteration order is insertion order, i.e. the
list order of the model. -/
def consolidate (slide_data : List (Nat × String)) : String :=
  String.intercalate "\n\n"
    (slide_data.map (fun p => "--- Slide " ++ toString p.1 ++ " ---\n" ++ p.2))

/-- The fixed instructional prompt of `analyze_text_with_gemini`
(lines 79-103) with the consolidated text embedded verbatim. -/
def build_prompt (all_slides_text : String) : String :=
  "\n    You are an expert business and strategy consultant for a top-tier firm like McKinsey or BCG. \n    Your task is to meticulously analyze the following content extracted from a multi-slide PowerPoint presentation. \n    The content from each slide is clearly separated and labeled with '--- Slide X ---'.\n\n    Your goal is to identify all factual, numerical, and logical inconsistencies across the entire deck. Pay close attention to:\n    1.  **Conflicting Numerical Data:** Look for mismatched revenue figures, user counts, market shares, financial projections, or percentages that don't add up. Be precise. For example, '$15M' on one slide vs. '$12M' on another.\n    2.  **Contradictory Textual Claims:** Identify statements that contradict each other. For example, \"we are entering a low-competition market\" on one slide and \"we must navigate a highly competitive landscape\" on another.\n    3.  **Timeline Mismatches:** Find conflicting dates, project phases, or launch forecasts.\n\n    **Instructions for Output:**\n    - Analyze the content below thoroughly.\n    - If you find one or more inconsistencies, list each one clearly. For each inconsistency, provide:\n        - A short, bolded title for the inconsistency (e.g., **Conflicting Revenue Projections**).\n        - The slide numbers where the conflicting information appears (e.g., \"Slide 2 vs. Slide 4.\").\n        - The specific conflicting data or statements, quoting them if possible.\n        - A brief explanation of why it's an inconsistency.\n    - If you find absolutely no inconsistencies, you MUST respond with the single sentence: \"No inconsistencies were found in the presentation.\"\n    - Do not comment on the presentation's quality, style, or grammar. Focus ONLY on factual and logical contradictions.\n\n    Here is the presentation content:\n    ---\n    " ++ all_slides_text ++ "\n    ---\n    "

/-- `analyze_text_with_gemini(all_slides_text)` from lines 73-109: submit
the prompt; return the response text, or on any exception the textual
error message embedding the exception detail. -/
def analyze_text_with_gemini (gen : GenAi) (all_slides_text : String) : String :=
  match gen (build_prompt all_slides_text) with
  | Except.ok t => t
  | Except.error e => "An error occurred while communicating with the AI model: " ++ e

/-- Python truthiness of `GEMINI_API_KEY` (`os.getenv` yields `none` when
the variable is absent from both the process environment and the `.env`
file loaded by `load_dotenv`; the empty string is also falsy). -/
def truthy : Option String → Bool
  | none => false
  | some s => s != ""

/-- `configure_ai()` from lines 15-19: raise `ValueError` when the key is
missing or empty, otherwise succeed. -/
def configure_ai (gemini_api_key : Option String) : Except PyErr Unit :=
  if truthy gemini_api_key then Except.ok ()
  else Except.error (PyErr.valueError
    "GEMINI_API_KEY not found. Please set it in your .env file.")

/-- What `main` ultimately prints (lines 111-140): the handled-error line
`[!] Error: {e}` for `FileNotFoundError` and `ValueError`, the generic
line `[!] An unexpected error occurred: {e}` for any other exception, or
the AI inconsistency report banner plus text. -/
inductive MainResult where
  | errorReport (msg : String)
  | unexpectedReport (msg : String)
  | report (text : String)
deriving Repr, DecidableEq

/-- The two `except` clauses of `main` (lines 137-140):
`except (FileNotFoundError, ValueError)` prints `[!] Error: {e}`, the
generic `except Exception` prints `[!] An unexpected error occurred: {e}`. -/
def handle_error : PyErr → MainResult
  | PyErr.valueError m => MainResult.errorReport m
  | PyErr.fileNotFoundError m => MainResult.errorReport m
  | PyErr.pptxFormatError m => MainResult.unexpectedReport m

/-- The `main()` pipeline (lines 111-140): configure, extract, consolidate,
analyze, print; any exception raised inside the `try` block is dispatched
to the matching `except` clause. -/
def main_run (gemini_api_key : Option String) (env : Env) (gen : GenAi)
    (pptx_file : String) : MainResult :=
  match configure_ai gemini_api_key with
  | Except.error e => handle_error e
  | Except.ok _ =>
    match extract_data_from_pptx env pptx_file with
    | Except.error e => handle_error e
    | Except.ok slide_data =>
        MainResult.report (analyze_text_with_gemini gen (consolidate slide_data))

/-! Helper lemmas shared by the claim theorems. -/

/-- On an existing, parseable input the extractor returns the enumerated
per-slide entries. -/
lemma extract_ok (env : Env) (pptx_path : String) (prs : Pptx)
    (hex : env.file_exists pptx_path = true)
    (hop : env.open_pptx pptx_path = Except.ok prs) :
    extract_data_from_pptx env pptx_path =
      Except.ok (prs.slides.enum.map (fun p => (p.1 + 1, slide_text env.ocr p.2))) := by
  simp [extract_data_from_pptx, hex, hop]

/-- The key sequence of the extracted map is `1, 2, …, N`. -/
lemma extract_keys (ocr : OcrEngine) (slides : List Slide) :
    (slides.enum.map (fun p => (p.1 + 1, slide_text ocr p.2))).map Prod.fst =
      (List.range slides.length).map (fun i => i + 1) := by
  rw [List.map_map, ← List.enum_map_fst slides, List.map_map]
  rfl

/-- The `i`-th entry of the extracted map comes from the `i`-th slide
alone. -/
lemma extract_entry (ocr : OcrEngine) (slides : List Slide) (i : Nat) (s : Slide)
    (h : slides[i]? = some s) :
    (slides.enum.map (fun p => (p.1 + 1, slide_text ocr p.2)))[i]? =
      some (i + 1, slide_text ocr s) := by
  simp [List.getElem?_map, List.getElem?_enum, h]

/-- A string with a newline spliced in the middle is never empty. -/
lemma append_newline_ne (a t : String) : a ++ "\n" ++ t ≠ "" := by
  intro h
  have hl : (a ++ "\n" ++ t).length = 0 := by rw [h]; rfl
  rw [String.length_append, String.length_append] at hl
  have h1 : ("\n" : String).length = 1 := rfl
  omega

/-- `String.intercalate.go` pulls a prepended accumulator out front. -/
lemma go_acc_append (s : String) : ∀ (bs : List String) (x y : String),
    String.intercalate.go (x ++ y) s bs = x ++ String.intercalate.go y s bs := by
  intro bs
  induction bs with
  | nil => intro x y; rfl
  | cons b bs ih =>
    intro x y
    show String.intercalate.go (x ++ y ++ s ++ b) s bs =
      x ++ String.intercalate.go (y ++ s ++ b) s bs
    rw [String.append_assoc x y s, String.append_assoc x (y ++ s) b]
    exact ih x (y ++ s ++ b)

/-- Unfolding law for `String.intercalate` on a non-empty list. -/
lemma intercalate_cons (s a : String) (as : List String) :
    String.intercalate s (a :: as) =
      a ++ (if as.isEmpty then "" else s ++ String.intercalate s as) := by
  cases as with
  | nil =>
    show String.intercalate.go a s [] = a ++ ""
    rw [String.append_empty]
    rfl
  | cons b bs =>
    show String.intercalate.go (a ++ s ++ b) s bs =
      a ++ (s ++ String.intercalate.go b s bs)
    rw [String.append_assoc a s b, go_acc_append s bs a (s ++ b),
      go_acc_append s bs s b]

/-- Folding `append_fragment` from a non-empty accumulator is
`String.intercalate.go` over the non-empty fragments. -/
lemma foldl_append_fragment (ts : List String) : ∀ acc : String, acc ≠ "" →
    ts.foldl append_fragment acc =
      String.intercalate.go acc "\n" (ts.filter (fun t => t != "")) := by
  induction ts with
  | nil => intro acc _; rfl
  | cons t ts ih =>
    intro acc hacc
    by_cases ht : t = ""
    · subst ht
      show ts.foldl append_fragment (append_fragment acc "") = _
      rw [show append_fragment acc "" = acc from rfl]
      simpa using ih acc hacc
    · have hstep : append_fragment acc t = acc ++ "\n" ++ t := by
        simp [append_fragment, ht, hacc]
      have hfil : (t :: ts).filter (fun t => t != "") =
          t :: ts.filter (fun t => t != "") := by
        simp [List.filter_cons, ht]
      rw [hfil]
      show ts.foldl append_fragment (append_fragment acc t) =
        String.intercalate.go (acc ++ "\n" ++ t) "\n" (ts.filter (fun t => t != ""))
      rw [hstep]
      exact ih (acc ++ "\n" ++ t) (append_newline_ne acc t)

/-- Joining the non-empty fragments with newlines equals the incremental
accumulation the spec describes. -/
lemma intercalate_filter_eq_foldl (l : List String) :
    String.intercalate "\n" (l.filter (fun t => t != "")) =
      l.foldl append_fragment "" := by
  induction l with
  | nil => rfl
  | cons t ts ih =>
    by_cases ht : t = ""
    · subst ht
      show String.intercalate "\n" (List.filter (fun t => t != "") ("" :: ts)) =
        ts.foldl append_fragment (append_fragment "" "")
      rw [show append_fragment "" "" = "" from rfl]
      simpa using ih
    · have hfil : (t :: ts).filter (fun t => t != "") =
          t :: ts.filter (fun t => t != "") := by
        simp [List.filter_cons, ht]
      have hstep : append_fragment "" t = t := by
        simp [append_fragment, ht]
      rw [hfil]
      show String.intercalate.go t "\n" (ts.filter (fun t => t != "")) =
        ts.foldl append_fragment (append_fragment "" t)
      rw [hstep, foldl_append_fragment ts t ht]

/-- The code-side fragments of one shape are exactly the spec-side ones. -/
lemma shape_texts_eq_spec (ocr : OcrEngine) (sh : Shape) :
    shape_texts ocr sh = shape_fragments_spec ocr sh := by
  obtain ⟨tf, tb, im⟩ := sh
  cases tf <;> cases tb <;> cases im <;> rfl

/-- Refinement: the code-side slide entry (`"\n".join(filter(None, …))`)
equals the spec-side incremental join of the spec-side fragments. -/
lemma slide_text_eq_spec (ocr : OcrEngine) (slide : Slide) :
    slide_text ocr slide = slide_text_spec ocr slide := by
  have hf : shape_texts ocr = shape_fragments_spec ocr :=
    funext (shape_texts_eq_spec ocr)
  unfold slide_text slide_text_spec
  rw [hf, intercalate_filter_eq_foldl]

/-- A string beginning with the OCR label is never empty. -/
lemma label_append_ne (t : String) : "[OCR Text from Image]:\n" ++ t ≠ "" := by
  intro h
  have hl : ("[OCR Text from Image]:\n" ++ t).length = 0 := by rw [h]; rfl
  rw [String.length_append] at hl
  have hlab : ("[OCR Text from Image]:\n" : String).length ≠ 0 := by decide
  omega

/-- The entry of a slide whose only shape is one image: the labeled OCR
text when the extractor returns a non-empty string, the empty string
otherwise (no stray label). -/
lemma slide_text_single_image (ocr : OcrEngine) (blob : List Nat) :
    slide_text ocr (Slide.mk [Shape.mk none none (some (PptxImage.mk blob))]) =
      (if extract_text_from_image ocr blob = "" then ""
       else "[OCR Text from Image]:\n" ++ extract_text_from_image ocr blob) := by
  by_cases h : extract_text_from_image ocr blob = ""
  · simp [slide_text, shape_texts, h]
    rfl
  · simp [slide_text, shape_texts, h, label_append_ne]
    rfl

/-! Claim theorems. -/

/-- C1: for every valid slide-deck input (the path exists and the container
parses to `prs`), `extract_data_from_pptx` returns a map with exactly one
entry per slide — `N` entries whose keys, in insertion order, are exactly
`1, 2, …, N` with no gaps — so every slide has an entry even when its
consolidated text is empty. -/
theorem C1_one_entry_per_slide (env : Env) (pptx_path : String) (prs : Pptx)
    (hex : env.file_exists pptx_path = true)
    (hop : env.open_pptx pptx_path = Except.ok prs) :
    ∃ m, extract_data_from_pptx env pptx_path = Except.ok m ∧
      m.length = prs.slides.length ∧
      m.map Prod.fst = (List.range prs.slides.length).map (fun i => i + 1) := by
  refine ⟨_, extract_ok env pptx_path prs hex hop, ?_,
    extract_keys env.ocr prs.slides⟩
  simp [List.length_map, List.enum_length]

/-- Witness for C1 on a concrete two-slide deck (one slide empty). -/
theorem C1_one_entry_per_slide_witness :
    ∃ m, extract_data_from_pptx
        ⟨fun _ => true,
         fun _ => Except.ok (Pptx.mk [Slide.mk [], Slide.mk [Shape.mk (some (TextFrame.mk "Hi")) none none]]),
         fun _ => Except.error "ocr offline"⟩ "deck.pptx" = Except.ok m ∧
      m.length = (Pptx.mk [Slide.mk [], Slide.mk [Shape.mk (some (TextFrame.mk "Hi")) none none]]).slides.length ∧
      m.map Prod.fst = (List.range (Pptx.mk [Slide.mk [], Slide.mk [Shape.mk (some (TextFrame.mk "Hi")) none none]]).slides.length).map (fun i => i + 1) :=
  C1_one_entry_per_slide _ "deck.pptx" _ rfl rfl

/-- C3: `consolidate` yields one block per slide in map order, each block
headed by the line `--- Slide N ---`, consecutive blocks separated by
exactly one blank line; in particular the map `{1: "A", 2: "B"}` gives
exactly `--- Slide 1 ---\nA\n\n--- Slide 2 ---\nB`, and the empty map
gives the empty string. -/
theorem C3_consolidate_blocks (p : Nat × String) (ps : List (Nat × String)) :
    consolidate [] = "" ∧
    consolidate [(1, "A"), (2, "B")] = "--- Slide 1 ---\nA\n\n--- Slide 2 ---\nB" ∧
    consolidate (p :: ps) =
      "--- Slide " ++ toString p.1 ++ " ---\n" ++ p.2 ++
        (if ps.isEmpty then "" else "\n\n" ++ consolidate ps) := by
  refine ⟨rfl, by decide, ?_⟩
  rcases ps with _ | ⟨q, qs⟩
  · show String.intercalate "\n\n" [_] = _
    rw [show (List.isEmpty ([] : List (Nat × String))) = true from rfl]
    simp only [if_true]
    rw [String.append_empty]
    rfl
  · unfold consolidate
    rw [List.map_cons, intercalate_cons]
    rfl

/-- C4: `extract_text_from_image` is total over arbitrary byte inputs and
never propagates an exception: on a successful recognition it returns the
recognized text with leading and trailing whitespace stripped, and on any
decode or recognition failure it returns the empty string. -/
theorem C4_ocr_never_raises (ocr : OcrEngine) (image_bytes : List Nat) :
    (∀ t, ocr image_bytes = Except.ok t →
      extract_text_from_image ocr image_bytes = py_strip t) ∧
    (∀ e, ocr image_bytes = Except.error e →
      extract_text_from_image ocr image_bytes = "") := by
  constructor
  · intro t h
    simp [extract_text_from_image, h]
  · intro e h
    simp [extract_text_from_image, h]

/-- Witness for C4: a concrete successful recognition (trimmed) and a
concrete decode failure (empty result). -/
theorem C4_ocr_never_raises_witness :
    extract_text_from_image (fun _ => Except.ok "  scanned text \n") [137, 80] =
      py_strip "  scanned text \n" ∧
    extract_text_from_image (fun _ => Except.error "cannot identify image file") [0] = "" :=
  ⟨(C4_ocr_never_raises (fun _ => Except.ok "  scanned text \n") [137, 80]).1 _ rfl,
   (C4_ocr_never_raises (fun _ => Except.error "cannot identify image file") [0]).2 _ rfl⟩

/-- C5: `analyze_text_with_gemini` always returns a string and never
raises: a successful remote call returns the service's free-text response
verbatim, and any error raised by the remote call is converted into a
textual error message carrying the error detail. -/
theorem C5_analyzer_never_raises (gen : GenAi) (all_slides_text : String) :
    (∀ t, gen (build_prompt all_slides_text) = Except.ok t →
      analyze_text_with_gemini gen all_slides_text = t) ∧
    (∀ e, gen (build_prompt all_slides_text) = Except.error e →
      analyze_text_with_gemini gen all_slides_text =
        "An error occurred while communicating with the AI model: " ++ e) := by
  constructor
  · intro t h
    simp [analyze_text_with_gemini, h]
  · intro e h
    simp [analyze_text_with_gemini, h]

/-- Witness for C5: a concrete successful response returned verbatim and a
concrete transport error converted to the textual pseudo-result. -/
theorem C5_analyzer_never_raises_witness :
    analyze_text_with_gemini (fun _ => Except.ok "No inconsistencies were found in the presentation.") "--- Slide 1 ---\nA" =
      "No inconsistencies were found in the presentation." ∧
    analyze_text_with_gemini (fun _ => Except.error "503 Service Unavailable") "--- Slide 1 ---\nA" =
      "An error occurred while communicating with the AI model: " ++ "503 Service Unavailable" :=
  ⟨(C5_analyzer_never_raises (fun _ => Except.ok "No inconsistencies were found in the presentation.") "--- Slide 1 ---\nA").1 _ rfl,
   (C5_analyzer_never_raises (fun _ => Except.error "503 Service Unavailable") "--- Slide 1 ---\nA").2 _ rfl⟩

/-- C2: every slide's map entry is the newline-join of its non-empty
fragments in shape order — text-frame text, then table cells row-major,
then labeled OCR text when non-empty — stated as a refinement against the
spec-side `slide_text_spec`; moreover a slide whose only shape is an
image yields `[OCR Text from Image]:` + newline + `ABC` when OCR
recognizes `ABC`, and the empty string (no stray label) when OCR yields
nothing, whether by whitespace-only recognition or by failure. -/
theorem C2_slide_entry_fragments (env : Env) (pptx_path : String) (prs : Pptx)
    (hex : env.file_exists pptx_path = true)
    (hop : env.open_pptx pptx_path = Except.ok prs) :
    (∃ m, extract_data_from_pptx env pptx_path = Except.ok m ∧
      ∀ i s, prs.slides[i]? = some s → m[i]? = some (i + 1, slide_text_spec env.ocr s)) ∧
    (∀ blob, env.ocr blob = Except.ok "ABC" →
      slide_text env.ocr (Slide.mk [Shape.mk none none (some (PptxImage.mk blob))]) =
        "[OCR Text from Image]:\nABC") ∧
    (∀ blob raw, env.ocr blob = Except.ok raw → py_strip raw = "" →
      slide_text env.ocr (Slide.mk [Shape.mk none none (some (PptxImage.mk blob))]) = "") ∧
    (∀ blob e, env.ocr blob = Except.error e →
      slide_text env.ocr (Slide.mk [Shape.mk none none (some (PptxImage.mk blob))]) = "") := by
  refine ⟨⟨_, extract_ok env pptx_path prs hex hop, ?_⟩, ?_, ?_, ?_⟩
  · intro i s h
    have he := extract_entry env.ocr prs.slides i s h
    rw [slide_text_eq_spec] at he
    exact he
  · intro blob hocr
    have h1 : extract_text_from_image env.ocr blob = "ABC" := by
      unfold extract_text_from_image
      rw [hocr]
      decide
    rw [slide_text_single_image, h1]
    decide
  · intro blob raw hocr hraw
    have h1 : extract_text_from_image env.ocr blob = "" := by
      unfold extract_text_from_image
      rw [hocr]
      exact hraw
    rw [slide_text_single_image, h1]
    rfl
  · intro blob e hocr
    have h1 : extract_text_from_image env.ocr blob = "" := by
      unfold extract_text_from_image
      rw [hocr]
    rw [slide_text_single_image, h1]
    rfl

/-- Witness for C2: a deck whose single slide holds one image, with an OCR
oracle recognizing `ABC`. -/
theorem C2_slide_entry_fragments_witness :
    slide_text (fun _ => Except.ok "ABC")
        (Slide.mk [Shape.mk none none (some (PptxImage.mk [1, 2, 3]))]) =
      "[OCR Text from Image]:\nABC" :=
  (C2_slide_entry_fragments
    ⟨fun _ => true,
     fun _ => Except.ok (Pptx.mk [Slide.mk [Shape.mk none none (some (PptxImage.mk [1, 2, 3]))]]),
     fun _ => Except.ok "ABC"⟩
    "deck.pptx" _ rfl rfl).2.1 [1, 2, 3] rfl

/-- C6: on a missing input path `extract_data_from_pptx` fails with the
`FileNotFoundError` kind — distinct from the other error kinds — whatever
the container parser and OCR engine would do (they are never consulted),
and `main` reports it through the handled-error branch without the remote
service ever being invoked (the outcome is the same for every `gen`). -/
theorem C6_missing_file_before_open (fe : String → Bool) (pptx_path : String)
    (h : fe pptx_path = false) :
    (∀ (op : String → Except String Pptx) (o : OcrEngine),
      extract_data_from_pptx ⟨fe, op, o⟩ pptx_path =
        Except.error (PyErr.fileNotFoundError
          ("The file '" ++ pptx_path ++ "' was not found."))) ∧
    (∀ (op : String → Except String Pptx) (o : OcrEngine) (key : Option String)
      (gen : GenAi), truthy key = true →
      main_run key ⟨fe, op, o⟩ gen pptx_path =
        MainResult.errorReport ("The file '" ++ pptx_path ++ "' was not found.")) ∧
    (∀ m1 m2, PyErr.fileNotFoundError m1 ≠ PyErr.valueError m2) ∧
    (∀ m1 m2, PyErr.fileNotFoundError m1 ≠ PyErr.pptxFormatError m2) := by
  refine ⟨?_, ?_, fun m1 m2 hc => PyErr.noConfusion hc,
    fun m1 m2 hc => PyErr.noConfusion hc⟩
  · intro op o
    simp [extract_data_from_pptx, h]
  · intro op o key gen hkey
    simp [main_run, configure_ai, hkey, extract_data_from_pptx, h, handle_error]

/-- Witness for C6: a missing path with live parser, OCR and service
oracles, none of which affects the outcome. -/
theorem C6_missing_file_before_open_witness :
    main_run (some "k")
        ⟨fun _ => false,
         fun _ => Except.ok (Pptx.mk []),
         fun _ => Except.ok "text"⟩
        (fun _ => Except.ok "report") "missing.pptx" =
      MainResult.errorReport ("The file '" ++ "missing.pptx" ++ "' was not found.") :=
  (C6_missing_file_before_open (fun _ => false) "missing.pptx" rfl).2.1
    _ _ (some "k") _ rfl

/-- C7: on a present but unparseable file the extraction fails with the
format/parse error kind, the error propagates out of
`extract_data_from_pptx`, `main` reports it through the generic handler,
and the analyzer is never invoked (the outcome is the same for every
`gen`). -/
theorem C7_corrupt_file_aborts (fe : String → Bool)
    (op : String → Except String Pptx) (pptx_path emsg : String)
    (hex : fe pptx_path = true) (hop : op pptx_path = Except.error emsg) :
    (∀ o : OcrEngine,
      extract_data_from_pptx ⟨fe, op, o⟩ pptx_path =
        Except.error (PyErr.pptxFormatError emsg)) ∧
    (∀ (o : OcrEngine) (key : Option String) (gen : GenAi), truthy key = true →
      main_run key ⟨fe, op, o⟩ gen pptx_path = MainResult.unexpectedReport emsg) := by
  constructor
  · intro o
    simp [extract_data_from_pptx, hex, hop]
  · intro o key gen hkey
    simp [main_run, configure_ai, hkey, extract_data_from_pptx, hex, hop, handle_error]

/-- Witness for C7: a present but corrupt file; the run reports the parse
error through the generic handler for an arbitrary live service oracle. -/
theorem C7_corrupt_file_aborts_witness :
    main_run (some "k")
        ⟨fun _ => true,
         fun _ => Except.error "Package not found at bad.pptx",
         fun _ => Except.ok "text"⟩
        (fun _ => Except.ok "report") "bad.pptx" =
      MainResult.unexpectedReport "Package not found at bad.pptx" :=
  (C7_corrupt_file_aborts (fun _ => true)
    (fun _ => Except.error "Package not found at bad.pptx") "bad.pptx"
    "Package not found at bad.pptx" rfl rfl).2 _ (some "k") _ rfl

/-- C8: when the credential is absent (or empty, which Python treats the
same), `configure_ai` raises the distinct `ValueError` kind and the whole
run fails with that report for every environment — in particular before
any file-existence check, open, extraction or service call, since the
outcome is the same for every `env` and `gen`. -/
theorem C8_missing_key_fails_fast (key : Option String)
    (h : truthy key = false) :
    configure_ai key = Except.error (PyErr.valueError
      "GEMINI_API_KEY not found. Please set it in your .env file.") ∧
    (∀ (env : Env) (gen : GenAi) (pptx_file : String),
      main_run key env gen pptx_file = MainResult.errorReport
        "GEMINI_API_KEY not found. Please set it in your .env file.") ∧
    (∀ m1 m2, PyErr.valueError m1 ≠ PyErr.fileNotFoundError m2) ∧
    (∀ m1 m2, PyErr.valueError m1 ≠ PyErr.pptxFormatError m2) := by
  refine ⟨?_, ?_, fun m1 m2 hc => PyErr.noConfusion hc,
    fun m1 m2 hc => PyErr.noConfusion hc⟩
  · simp [configure_ai, h]
  · intro env gen pptx_file
    simp [main_run, configure_ai, h, handle_error]

/-- Witness for C8: an absent key aborts the run whatever the file system,
deck and service would have provided. -/
theorem C8_missing_key_fails_fast_witness :
    main_run none
        ⟨fun _ => true,
         fun _ => Except.ok (Pptx.mk [Slide.mk []]),
         fun _ => Except.ok "text"⟩
        (fun _ => Except.ok "report") "deck.pptx" =
      MainResult.errorReport
        "GEMINI_API_KEY not found. Please set it in your .env file." :=
  (C8_missing_key_fails_fast none rfl).2.1 _ _ "deck.pptx"

/-- C9: extraction and consolidation are deterministic and depend only on
the parsed document and the OCR behavior: two environments that parse
their inputs to the same document and whose OCR engines agree pointwise
yield identical maps and identical consolidated strings. -/
theorem C9_deterministic (env1 env2 : Env) (p1 p2 : String) (prs : Pptx)
    (hocr : ∀ b, env1.ocr b = env2.ocr b)
    (h1 : env1.file_exists p1 = true) (h2 : env2.file_exists p2 = true)
    (ho1 : env1.open_pptx p1 = Except.ok prs)
    (ho2 : env2.open_pptx p2 = Except.ok prs) :
    extract_data_from_pptx env1 p1 = extract_data_from_pptx env2 p2 ∧
    Except.map consolidate (extract_data_from_pptx env1 p1) =
      Except.map consolidate (extract_data_from_pptx env2 p2) := by
  have hoc : env1.ocr = env2.ocr := funext hocr
  have e1 := extract_ok env1 p1 prs h1 ho1
  have e2 := extract_ok env2 p2 prs h2 ho2
  constructor
  · rw [e1, e2, hoc]
  · rw [e1, e2, hoc]

/-- Witness for C9: the same one-slide document reached through two
different paths and file systems gives the same map and report text. -/
theorem C9_deterministic_witness :
    extract_data_from_pptx
        ⟨fun s => s == "a.pptx",
         fun _ => Except.ok (Pptx.mk [Slide.mk [Shape.mk (some (TextFrame.mk "T")) none none]]),
         fun _ => Except.error "ocr offline"⟩ "a.pptx" =
      extract_data_from_pptx
        ⟨fun _ => true,
         fun _ => Except.ok (Pptx.mk [Slide.mk [Shape.mk (some (TextFrame.mk "T")) none none]]),
         fun _ => Except.error "ocr offline"⟩ "copy/a.pptx" :=
  (C9_deterministic
    ⟨fun s => s == "a.pptx",
     fun _ => Except.ok (Pptx.mk [Slide.mk [Shape.mk (some (TextFrame.mk "T")) none none]]),
     fun _ => Except.error "ocr offline"⟩
    ⟨fun _ => true,
     fun _ => Except.ok (Pptx.mk [Slide.mk [Shape.mk (some (TextFrame.mk "T")) none none]]),
     fun _ => Except.error "ocr offline"⟩
    "a.pptx" "copy/a.pptx"
    (Pptx.mk [Slide.mk [Shape.mk (some (TextFrame.mk "T")) none none]])
    (fun _ => rfl) (by decide) rfl rfl rfl).1

/-- C10: slide entries are independent and stable: the extracted map's
`i`-th entry is keyed `i + 1` and determined solely by the `i`-th slide's
shapes (via `slide_text`), and the keys are pairwise distinct, so no
entry is ever overwritten or removed while later slides are processed. -/
theorem C10_entries_independent_stable (env : Env) (pptx_path : String)
    (prs : Pptx) (hex : env.file_exists pptx_path = true)
    (hop : env.open_pptx pptx_path = Except.ok prs) :
    ∃ m, extract_data_from_pptx env pptx_path = Except.ok m ∧
      (∀ i s, prs.slides[i]? = some s → m[i]? = some (i + 1, slide_text env.ocr s)) ∧
      (m.map Prod.fst).Nodup := by
  refine ⟨_, extract_ok env pptx_path prs hex hop,
    fun i s h => extract_entry env.ocr prs.slides i s h, ?_⟩
  rw [extract_keys]
  exact List.Nodup.map (fun a b hab => by omega) (List.nodup_range _)

/-- Witness for C10 on a concrete two-slide deck. -/
theorem C10_entries_independent_stable_witness :
    ∃ m, extract_data_from_pptx
        ⟨fun _ => true,
         fun _ => Except.ok (Pptx.mk [Slide.mk [], Slide.mk [Shape.mk (some (TextFrame.mk "B")) none none]]),
         fun _ => Except.error "ocr offline"⟩ "deck.pptx" = Except.ok m ∧
      (∀ i s, (Pptx.mk [Slide.mk [], Slide.mk [Shape.mk (some (TextFrame.mk "B")) none none]]).slides[i]? = some s →
        m[i]? = some (i + 1, slide_text (fun _ => Except.error "ocr offline") s)) ∧
      (m.map Prod.fst).Nodup :=
  C10_entries_independent_stable _ "deck.pptx" _ rfl rfl

end PPTScanner
